import Mathlib

/-!
Shallow embedding of the LS-8 emulator (`cpu.py`) of this repository.

The Python class `CPU` holds mutable fields `running`, `ram` (a list of 256
integers), `reg` (a list of 8 integers), `ir`, `pc`, `fl`; we model it as the
structure `LS8.CPU` below, with all Python integers embedded as `Int`
(Python integers are unbounded and the code never masks to 8 bits).

Python list indexing `l[i]` succeeds for `-len(l) <= i < len(l)` (a negative
index `i` aliases `len(l) + i`) and raises `IndexError` otherwise; this is
modelled by `LS8.pyGet` / `LS8.pySet` returning `Option`.  Fallible
operations and `raise` are modelled with `Except`; the two `print`
side effects (PRN, PRA) are modelled by appending the printed register value
to an `output` list (the decimal/character rendering itself is outside the
model).  `sys.exit(1)` on an unknown opcode is a distinguished result of a
step, carrying the machine state at exit time.
-/

namespace LS8

/-- Register index of the stack pointer (source: `SP = 7`). -/
def SP : Nat := 7

/-- Opcode constants, from the constant block of `cpu.py`. -/
def NOP : Int := 0x00

def HLT : Int := 0x01

def RET : Int := 0x11

def CALL : Int := 0x50

def JMP : Int := 0x54

def JEQ : Int := 0x55

def JNE : Int := 0x56

def PUSH : Int := 0x45

def POP : Int := 0x46

def PRA : Int := 0x48

def PRN : Int := 0x47

def LDI : Int := 0x82

def LD : Int := 0x83

def ST : Int := 0x84

def INC : Int := 0x65

def DEC : Int := 0x66

def ADD : Int := 0xA0

def SUB : Int := 0xA1

def AND : Int := 0xA8

def OR : Int := 0xAA

def XOR : Int := 0xAB

def NOT : Int := 0x69

def SHL : Int := 0xAC

def SHR : Int := 0xAD

def CMP : Int := 0xA7

def MUL : Int := 0xA2

/-- Machine state: the mutable fields of the Python `CPU` object
(`mar`/`mdr` are declared in the source but never used and are omitted);
`output` collects the values printed by PRN/PRA. -/
structure CPU where
  running : Bool
  ram : List Int
  reg : List Int
  ir : Int
  pc : Int
  fl : Int
  output : List Int
  deriving Repr, DecidableEq

/-- Python exceptions that the emulator code can raise:
`IndexError` from list indexing, `TypeError` from using `None` as an index,
`ValueError` from a negative shift count, and the explicit
`Exception("Unsupported ALU operation")`. -/
inductive Exc where
  | indexError
  | typeError
  | valueError
  | aluUnsupported
  deriving Repr, DecidableEq

/-- Python list read `l[i]`: valid for `0 ≤ i < len l`; a negative index
`-len l ≤ i < 0` aliases `len l + i`; otherwise `IndexError` (`none`). -/
def pyGet (l : List Int) (i : Int) : Option Int :=
  if 0 ≤ i ∧ i < (l.length : Int) then some (l.getD i.toNat 0)
  else if -(l.length : Int) ≤ i ∧ i < 0 then some (l.getD ((l.length : Int) + i).toNat 0)
  else none

/-- Python list write `l[i] = v`, with the same index semantics as `pyGet`. -/
def pySet (l : List Int) (i v : Int) : Option (List Int) :=
  if 0 ≤ i ∧ i < (l.length : Int) then some (l.set i.toNat v)
  else if -(l.length : Int) ≤ i ∧ i < 0 then some (l.set ((l.length : Int) + i).toNat v)
  else none

/-- Source `CPU.ram_read(self, pc)`: `return self.ram[pc]`. -/
def ram_read (c : CPU) (i : Int) : Except Exc Int :=
  match pyGet c.ram i with
  | some v => .ok v
  | none => .error .indexError

/-- Source `CPU.ram_write(self, pc, instruction)`: `self.ram[pc] = instruction`. -/
def ram_write (c : CPU) (i v : Int) : Except Exc CPU :=
  match pySet c.ram i v with
  | some l => .ok { c with ram := l }
  | none => .error .indexError

/-- Read `self.reg[i]` (Python list indexing on the 8-element register list). -/
def reg_get (c : CPU) (i : Int) : Except Exc Int :=
  match pyGet c.reg i with
  | some v => .ok v
  | none => .error .indexError

/-- Write `self.reg[i] = v`. -/
def reg_set (c : CPU) (i v : Int) : Except Exc CPU :=
  match pySet c.reg i v with
  | some l => .ok { c with reg := l }
  | none => .error .indexError

/-- Value of an optional ALU second operand; `None` used as a list index
would raise a `TypeError` in Python (this branch is unreachable from the
handlers, which pass `none` only to INC/DEC). -/
def argVal : Option Int → Except Exc Int
  | some v => .ok v
  | none => .error .typeError

/-- Python `a << b` on integers: `a * 2 ^ b` for `b ≥ 0`, `ValueError` on a
negative shift count. -/
def pyShl (a b : Int) : Except Exc Int :=
  if 0 ≤ b then .ok (a * 2 ^ b.toNat) else .error .valueError

/-- Python `a >> b` on integers: floor division by `2 ^ b` for `b ≥ 0`,
`ValueError` on a negative shift count. -/
def pyShr (a b : Int) : Except Exc Int :=
  if 0 ≤ b then .ok (Int.fdiv a (2 ^ b.toNat)) else .error .valueError

/-- Source `CPU.alu(self, op, reg_a, reg_b)`.  `reg_b` is `Option Int`
because the INC/DEC call sites pass Python `None`.  Note the AND/OR/XOR
branches read `self.reg[reg_b]` twice and never read `self.reg[reg_a]`,
exactly as in the source. -/
def alu (op : Int) (c : CPU) (reg_a : Int) (reg_b : Option Int) : Except Exc CPU :=
  if op = ADD then do
    let a ← reg_get c reg_a
    let b ← argVal reg_b
    let bv ← reg_get c b
    reg_set c reg_a (a + bv)
  else if op = SUB then do
    let a ← reg_get c reg_a
    let b ← argVal reg_b
    let bv ← reg_get c b
    reg_set c reg_a (a - bv)
  else if op = MUL then do
    let a ← reg_get c reg_a
    let b ← argVal reg_b
    let bv ← reg_get c b
    reg_set c reg_a (a * bv)
  else if op = INC then do
    let a ← reg_get c reg_a
    reg_set c reg_a (a + 1)
  else if op = DEC then do
    let a ← reg_get c reg_a
    reg_set c reg_a (a - 1)
  else if op = AND then do
    let b ← argVal reg_b
    let bv1 ← reg_get c b
    let bv2 ← reg_get c b
    reg_set c reg_a (Int.land bv1 bv2)
  else if op = OR then do
    let b ← argVal reg_b
    let bv1 ← reg_get c b
    let bv2 ← reg_get c b
    reg_set c reg_a (Int.lor bv1 bv2)
  else if op = XOR then do
    let b ← argVal reg_b
    let bv1 ← reg_get c b
    let bv2 ← reg_get c b
    reg_set c reg_a (Int.xor bv1 bv2)
  else if op = NOT then do
    let a ← reg_get c reg_a
    reg_set c reg_a (255 - a)
  else if op = SHL then do
    let a ← reg_get c reg_a
    let b ← argVal reg_b
    let bv ← reg_get c b
    let r ← pyShl a bv
    reg_set c reg_a r
  else if op = SHR then do
    let a ← reg_get c reg_a
    let b ← argVal reg_b
    let bv ← reg_get c b
    let r ← pyShr a bv
    reg_set c reg_a r
  else .error .aluUnsupported

/-- Source `handle_nop`: the bare expression `next` has no effect. -/
def handle_nop (c : CPU) : Except Exc CPU := .ok c

/-- Source `handle_hlt`: `self.running = False`. -/
def handle_hlt (c : CPU) : Except Exc CPU := .ok { c with running := false }

/-- Source `handle_ret`: pop the return address and set `pc` to it minus 1. -/
def handle_ret (c : CPU) : Except Exc CPU := do
  let sp ← reg_get c SP
  let register ← ram_read c sp
  let c ← reg_set c SP (sp + 1)
  pure { c with pc := register - 1 }

/-- Source `handle_call`: push `pc + 2`, set `pc` to the register value
(note: with no `- 1` compensation, unlike the other jump handlers). -/
def handle_call (c : CPU) : Except Exc CPU := do
  let r ← ram_read c (c.pc + 1)
  let reg_a ← reg_get c r
  let sp ← reg_get c SP
  let c ← reg_set c SP (sp - 1)
  let c ← ram_write c (sp - 1) (c.pc + 2)
  pure { c with pc := reg_a }

/-- Source `handle_jmp`: `self.pc = reg_a - 1`. -/
def handle_jmp (c : CPU) : Except Exc CPU := do
  let r ← ram_read c (c.pc + 1)
  let reg_a ← reg_get c r
  pure { c with pc := reg_a - 1 }

/-- Source `handle_jeq`: jump when `self.fl == 1`, else `self.pc += 1`. -/
def handle_jeq (c : CPU) : Except Exc CPU := do
  let r ← ram_read c (c.pc + 1)
  let reg_a ← reg_get c r
  if c.fl = 1 then pure { c with pc := reg_a - 1 }
  else pure { c with pc := c.pc + 1 }

/-- Source `handle_jne`: jump when `self.fl > 1`, else `self.pc += 1`. -/
def handle_jne (c : CPU) : Except Exc CPU := do
  let r ← ram_read c (c.pc + 1)
  let reg_a ← reg_get c r
  if c.fl > 1 then pure { c with pc := reg_a - 1 }
  else pure { c with pc := c.pc + 1 }

/-- Source `handle_push`: read the register operand, decrement `reg[SP]`,
write the register value at the new `reg[SP]`, `self.pc += 1`. -/
def handle_push (c : CPU) : Except Exc CPU := do
  let register ← ram_read c (c.pc + 1)
  let val ← reg_get c register
  let sp ← reg_get c SP
  let c ← reg_set c SP (sp - 1)
  let c ← ram_write c (sp - 1) val
  pure { c with pc := c.pc + 1 }

/-- Source `handle_pop`: read memory at `reg[SP]` into the operand register,
then `self.reg[SP] += 1` (re-reading `reg[SP]`, which matters when the
operand register is 7 itself), `self.pc += 1`. -/
def handle_pop (c : CPU) : Except Exc CPU := do
  let register ← ram_read c (c.pc + 1)
  let sp ← reg_get c SP
  let val ← ram_read c sp
  let c ← reg_set c register val
  let sp2 ← reg_get c SP
  let c ← reg_set c SP (sp2 + 1)
  pure { c with pc := c.pc + 1 }

/-- Source `handle_pra`: print `chr(self.reg[reg_a])`; the printed register
value is appended to `output`. -/
def handle_pra (c : CPU) : Except Exc CPU := do
  let reg_a ← ram_read c (c.pc + 1)
  let v ← reg_get c reg_a
  pure { c with output := c.output ++ [v], pc := c.pc + 1 }

/-- Source `handle_prn`: print `self.reg[reg_a]`; the printed register value
is appended to `output`. -/
def handle_prn (c : CPU) : Except Exc CPU := do
  let reg_a ← ram_read c (c.pc + 1)
  let v ← reg_get c reg_a
  pure { c with output := c.output ++ [v], pc := c.pc + 1 }

/-- Source `handle_ldi`: `reg[ram[pc+1]] = ram[pc+2]`, `self.pc += 2`. -/
def handle_ldi (c : CPU) : Except Exc CPU := do
  let reg_a ← ram_read c (c.pc + 1)
  let val ← ram_read c (c.pc + 2)
  let c ← reg_set c reg_a val
  pure { c with pc := c.pc + 2 }

/-- Source `handle_ld`: textually identical to `handle_ldi` (the second
operand byte is not dereferenced). -/
def handle_ld (c : CPU) : Except Exc CPU := do
  let reg_a ← ram_read c (c.pc + 1)
  let val ← ram_read c (c.pc + 2)
  let c ← reg_set c reg_a val
  pure { c with pc := c.pc + 2 }

/-- Source `handle_st`: `reg[ram[pc+1]] = reg[ram[pc+2]]`, `self.pc += 2`. -/
def handle_st (c : CPU) : Except Exc CPU := do
  let reg_a ← ram_read c (c.pc + 1)
  let i ← ram_read c (c.pc + 2)
  let val ← reg_get c i
  let c ← reg_set c reg_a val
  pure { c with pc := c.pc + 2 }

/-- Source `handle_inc`: `self.alu(INC, reg_a, None)`, `self.pc += 1`. -/
def handle_inc (c : CPU) : Except Exc CPU := do
  let reg_a ← ram_read c (c.pc + 1)
  let c ← alu INC c reg_a none
  pure { c with pc := c.pc + 1 }

/-- Source `handle_dec`: `self.alu(DEC, reg_a, None)`, `self.pc += 1`. -/
def handle_dec (c : CPU) : Except Exc CPU := do
  let reg_a ← ram_read c (c.pc + 1)
  let c ← alu DEC c reg_a none
  pure { c with pc := c.pc + 1 }

/-- Source `handle_add`. -/
def handle_add (c : CPU) : Except Exc CPU := do
  let reg_a ← ram_read c (c.pc + 1)
  let reg_b ← ram_read c (c.pc + 2)
  let c ← alu ADD c reg_a (some reg_b)
  pure { c with pc := c.pc + 2 }

/-- Source `handle_sub`. -/
def handle_sub (c : CPU) : Except Exc CPU := do
  let reg_a ← ram_read c (c.pc + 1)
  let reg_b ← ram_read c (c.pc + 2)
  let c ← alu SUB c reg_a (some reg_b)
  pure { c with pc := c.pc + 2 }

/-- Source `handle_and`. -/
def handle_and (c : CPU) : Except Exc CPU := do
  let reg_a ← ram_read c (c.pc + 1)
  let reg_b ← ram_read c (c.pc + 2)
  let c ← alu AND c reg_a (some reg_b)
  pure { c with pc := c.pc + 2 }

/-- Source `handle_or`. -/
def handle_or (c : CPU) : Except Exc CPU := do
  let reg_a ← ram_read c (c.pc + 1)
  let reg_b ← ram_read c (c.pc + 2)
  let c ← alu OR c reg_a (some reg_b)
  pure { c with pc := c.pc + 2 }

/-- Source `handle_xor`. -/
def handle_xor (c : CPU) : Except Exc CPU := do
  let reg_a ← ram_read c (c.pc + 1)
  let reg_b ← ram_read c (c.pc + 2)
  let c ← alu XOR c reg_a (some reg_b)
  pure { c with pc := c.pc + 2 }

/-- Source `handle_not`. -/
def handle_not (c : CPU) : Except Exc CPU := do
  let reg_a ← ram_read c (c.pc + 1)
  let reg_b ← ram_read c (c.pc + 2)
  let c ← alu NOT c reg_a (some reg_b)
  pure { c with pc := c.pc + 2 }

/-- Source `handle_shl`. -/
def handle_shl (c : CPU) : Except Exc CPU := do
  let reg_a ← ram_read c (c.pc + 1)
  let reg_b ← ram_read c (c.pc + 2)
  let c ← alu SHL c reg_a (some reg_b)
  pure { c with pc := c.pc + 2 }

/-- Source `handle_shr`. -/
def handle_shr (c : CPU) : Except Exc CPU := do
  let reg_a ← ram_read c (c.pc + 1)
  let reg_b ← ram_read c (c.pc + 2)
  let c ← alu SHR c reg_a (some reg_b)
  pure { c with pc := c.pc + 2 }

/-- Source `handle_mul`. -/
def handle_mul (c : CPU) : Except Exc CPU := do
  let reg_a ← ram_read c (c.pc + 1)
  let reg_b ← ram_read c (c.pc + 2)
  let c ← alu MUL c reg_a (some reg_b)
  pure { c with pc := c.pc + 2 }

/-- Source `handle_cmp`: compare two register values and set `self.fl` by an
if/elif/elif chain to exactly one of 1, 2, 4; `self.pc += 2`. -/
def handle_cmp (c : CPU) : Except Exc CPU := do
  let i ← ram_read c (c.pc + 1)
  let reg_a ← reg_get c i
  let j ← ram_read c (c.pc + 2)
  let reg_b ← reg_get c j
  let c :=
    if reg_a = reg_b then { c with fl := 1 }
    else if reg_a > reg_b then { c with fl := 2 }
    else if reg_a < reg_b then { c with fl := 4 }
    else c
  pure { c with pc := c.pc + 2 }

/-- The dispatch dictionary `self.branchtable` built in `CPU.__init__`:
a partial map from opcode byte to handler. -/
def branchtable (ir : Int) : Option (CPU → Except Exc CPU) :=
  if ir = NOP then some handle_nop
  else if ir = HLT then some handle_hlt
  else if ir = RET then some handle_ret
  else if ir = CALL then some handle_call
  else if ir = JMP then some handle_jmp
  else if ir = JEQ then some handle_jeq
  else if ir = JNE then some handle_jne
  else if ir = PUSH then some handle_push
  else if ir = POP then some handle_pop
  else if ir = PRA then some handle_pra
  else if ir = PRN then some handle_prn
  else if ir = LDI then some handle_ldi
  else if ir = LD then some handle_ld
  else if ir = ST then some handle_st
  else if ir = INC then some handle_inc
  else if ir = DEC then some handle_dec
  else if ir = ADD then some handle_add
  else if ir = SUB then some handle_sub
  else if ir = AND then some handle_and
  else if ir = OR then some handle_or
  else if ir = XOR then some handle_xor
  else if ir = NOT then some handle_not
  else if ir = SHL then some handle_shl
  else if ir = SHR then some handle_shr
  else if ir = MUL then some handle_mul
  else if ir = CMP then some handle_cmp
  else none

/-- Tail of each iteration of `CPU.run`:
`if self.pc >= len(self.ram) - 1: self.pc = 0 else: self.pc += 1`. -/
def postStep (c : CPU) : CPU :=
  if c.pc ≥ (c.ram.length : Int) - 1 then { c with pc := 0 }
  else { c with pc := c.pc + 1 }

/-- Result of one iteration of the `while` body of `CPU.run`. -/
inductive StepRes where
  | next (c : CPU)
  | exitUnknown (c : CPU)
  | exc (e : Exc)
  deriving Repr, DecidableEq

/-- One iteration of the `while` body of `CPU.run`: fetch into `self.ir`,
dispatch through `self.branchtable` (an absent opcode prints and calls
`sys.exit(1)`, leaving the state as it was after the fetch), then apply the
uniform program-counter post-step. -/
def step (c : CPU) : StepRes :=
  match ram_read c c.pc with
  | .error e => .exc e
  | .ok ir =>
    let c := { c with ir := ir }
    match branchtable ir with
    | none => .exitUnknown c
    | some h =>
      match h c with
      | .error e => .exc e
      | .ok c => .next (postStep c)

/-- Overall outcome of `CPU.run`. -/
inductive RunResult where
  | halted (c : CPU)
  | unknownExit (c : CPU)
  | raised (e : Exc)
  | fuelOut (c : CPU)
  deriving Repr, DecidableEq

/-- The `while self.running` loop of `CPU.run`, with explicit fuel
(an embedding artifact: the Python loop may run forever). -/
def runLoop : Nat → CPU → RunResult
  | 0, c => .fuelOut c
  | Nat.succ n, c =>
    if c.running then
      match step c with
      | .next c2 => runLoop n c2
      | .exitUnknown c2 => .unknownExit c2
      | .exc e => .raised e
    else .halted c

/-- Source `CPU.run`: set `self.running = True`, then loop. -/
def run (fuel : Nat) (c : CPU) : RunResult :=
  runLoop fuel { c with running := true }

/-- Machine state produced by `CPU.__init__`: 256 zeroed memory cells,
8 zeroed registers except `reg[SP] = 0xF4`. -/
def initialCPU : CPU :=
  { running := false
    ram := List.replicate 256 0
    reg := [0, 0, 0, 0, 0, 0, 0, 0xF4]
    ir := 0
    pc := 0
    fl := 0
    output := [] }

/-- State after `CPU.load` has written the parsed program bytes sequentially
from address 0 (for a program of at most 256 values). -/
def loadProgram (prog : List Int) : CPU :=
  { initialCPU with ram := prog ++ List.replicate (256 - prog.length) 0 }

/-- Program used as a concrete failing input: thirteen consecutive `POP R0`
instructions.  The stack pointer starts at 0xF4 = 244; the 13th POP reads
memory at index 256. -/
def popProg13 : List Int :=
  [0x46, 0, 0x46, 0, 0x46, 0, 0x46, 0, 0x46, 0, 0x46, 0, 0x46, 0,
   0x46, 0, 0x46, 0, 0x46, 0, 0x46, 0, 0x46, 0, 0x46, 0]

instance {e a : Type} [DecidableEq e] [DecidableEq a] : DecidableEq (Except e a) :=
  fun x y => match x, y with
  | .ok v, .ok w => if h : v = w then .isTrue (by rw [h]) else .isFalse (by simp [h])
  | .error v, .error w => if h : v = w then .isTrue (by rw [h]) else .isFalse (by simp [h])
  | .ok _, .error _ => .isFalse (by simp)
  | .error _, .ok _ => .isFalse (by simp)

/-- Concrete machine state with a `CALL R0` instruction at address 0 and
`reg[0] = 10`. -/
def callState : CPU :=
  { initialCPU with ram := [0x50, 0] ++ List.replicate 254 0,
                    reg := [10, 0, 0, 0, 0, 0, 0, 0xF4] }

/-- Concrete machine state with `CALL R0` at address 0, `reg[0] = 10`, and a
`RET` at address 11 (the first instruction the loop fetches after the CALL,
since the CALL handler does not pre-subtract one). -/
def callRetState : CPU :=
  { initialCPU with
    ram := [0x50, 0, 0, 0, 0, 0, 0, 0, 0, 0, 0, 0x11] ++ List.replicate 244 0,
    reg := [10, 0, 0, 0, 0, 0, 0, 0xF4] }

/-- Concrete machine state with the program `PUSH R0; POP R0` and
`reg[0] = 42`. -/
def pushPopState : CPU :=
  { initialCPU with ram := [0x45, 0, 0x46, 0] ++ List.replicate 252 0,
                    reg := [42, 0, 0, 0, 0, 0, 0, 0xF4] }

/-- Concrete machine state with the program `PUSH R7; POP R7`: pushing and
popping the stack-pointer register itself. -/
def pushPopR7 : CPU :=
  { initialCPU with ram := [0x45, 7, 0x46, 7] ++ List.replicate 252 0 }

/-- Concrete machine state with operand bytes R0, R1 at addresses 1 and 2
and register values `reg[0] = 5`, `reg[1] = 12`. -/
def andState : CPU :=
  { initialCPU with ram := [0xA8, 0, 1] ++ List.replicate 253 0,
                    reg := [5, 12, 0, 0, 0, 0, 0, 0xF4] }

/-- Concrete machine state with `JEQ R0` at address 0 and `reg[0] = 10`
(flags still 0, their initial value). -/
def jeqState : CPU :=
  { initialCPU with ram := [0x55, 0] ++ List.replicate 254 0,
                    reg := [10, 0, 0, 0, 0, 0, 0, 0xF4] }

/-- Concrete machine state with `JNE R0` at address 0 and `reg[0] = 10`. -/
def jneState : CPU :=
  { initialCPU with ram := [0x56, 0] ++ List.replicate 254 0,
                    reg := [10, 0, 0, 0, 0, 0, 0, 0xF4] }

/-- Concrete machine state with the program `CMP R0, R1` and equal register
values `reg[0] = reg[1] = 5`. -/
def cmpState : CPU :=
  { initialCPU with ram := [0xA7, 0, 1] ++ List.replicate 253 0,
                    reg := [5, 5, 0, 0, 0, 0, 0, 0xF4] }

/-- State after one step of `cmpState`: the CMP set the flags to 1. -/
def cmpStateAfter : CPU :=
  { cmpState with ir := 0xA7, fl := 1, pc := 3 }

/-- Concrete machine state whose stack pointer `reg[7]` is 0, with
`reg[0] = 42` and memory cell 255 holding 99. -/
def negSpState : CPU :=
  { initialCPU with ram := [0x45, 0] ++ List.replicate 253 0 ++ [99],
                    reg := [42, 0, 0, 0, 0, 0, 0, 0] }

/-- Variant of `negSpState` whose stack pointer `reg[7]` is already -1. -/
def negSpState2 : CPU :=
  { negSpState with reg := [42, 0, 0, 0, 0, 0, 0, -1] }

/-!  Helper lemmas about the embedding's primitives. -/

@[simp]
theorem ok_bind {α β : Type} (a : α) (f : α → Except Exc β) :
    (Except.ok a : Except Exc α) >>= f = f a := rfl

@[simp]
theorem error_bind {α β : Type} (e : Exc) (f : α → Except Exc β) :
    (Except.error e : Except Exc α) >>= f = Except.error e := rfl

@[simp]
theorem pure_ok {α : Type} (a : α) : (pure a : Except Exc α) = Except.ok a := rfl

theorem pyGet_nonneg (l : List Int) (i : Int) (h0 : 0 ≤ i) (h1 : i < (l.length : Int)) :
    pyGet l i = some (l.getD i.toNat 0) := by
  unfold pyGet
  rw [if_pos ⟨h0, h1⟩]

theorem pyGet_negIdx (l : List Int) (i : Int) (h0 : -(l.length : Int) ≤ i) (h1 : i < 0) :
    pyGet l i = some (l.getD ((l.length : Int) + i).toNat 0) := by
  unfold pyGet
  rw [if_neg (by omega), if_pos ⟨h0, h1⟩]

theorem pySet_nonneg (l : List Int) (i v : Int) (h0 : 0 ≤ i) (h1 : i < (l.length : Int)) :
    pySet l i v = some (l.set i.toNat v) := by
  unfold pySet
  rw [if_pos ⟨h0, h1⟩]

theorem pySet_negIdx (l : List Int) (i v : Int) (h0 : -(l.length : Int) ≤ i) (h1 : i < 0) :
    pySet l i v = some (l.set ((l.length : Int) + i).toNat v) := by
  unfold pySet
  rw [if_neg (by omega), if_pos ⟨h0, h1⟩]

theorem getD_set_self (l : List Int) (n : Nat) (v : Int) (h : n < l.length) :
    (l.set n v).getD n 0 = v := by
  simp [List.getD, List.getElem?_set_self, h]

theorem getD_set_ne (l : List Int) (n m : Nat) (v : Int) (h : n ≠ m) :
    (l.set n v).getD m 0 = l.getD m 0 := by
  simp [List.getD, List.getElem?_set_ne h]

theorem Int.land_self (x : Int) : Int.land x x = x := by
  cases x <;> simp [Int.land]

theorem Int.lor_self (x : Int) : Int.lor x x = x := by
  cases x <;> simp [Int.lor]

theorem Int.xor_self (x : Int) : Int.xor x x = 0 := by
  cases x <;> simp [Int.xor]

set_option maxRecDepth 8000 in
/-- C1.  The claim asserts that every memory access of the fetch step and the
handlers stays in [0,255] and that the out-of-range access error is
unreachable in a run of a loaded program.  The code violates this: running
the loaded program consisting of thirteen `POP R0` instructions advances the
stack pointer from 0xF4 = 244 past the top of memory, and the thirteenth POP
reads memory at index 256, raising an uncaught index error. -/
theorem c1_pop_overflow_crashes :
    run 13 (loadProgram popProg13) = RunResult.raised Exc.indexError := by
  rfl

/-- C8.  The post-step of the execution loop is equivalent to: set the
program counter to `pc + 1` when `pc + 1 < 256`, and reset it to 0
otherwise; in particular a program counter left at the last valid address
255 wraps to 0.  Moreover the post-step is applied after every executed
instruction: whenever the fetch succeeds and the dispatched handler returns
normally, the step's result is exactly the handler's state with the
post-step applied (wraparound is not an error). -/
theorem c8_postStep_spec (c : CPU) (hlen : c.ram.length = 256) :
    (c.pc + 1 < 256 → postStep c = { c with pc := c.pc + 1 })
    ∧ (¬ c.pc + 1 < 256 → postStep c = { c with pc := 0 })
    ∧ (c.pc = 255 → (postStep c).pc = 0)
    ∧ (∀ (b : Int) (f : CPU → Except Exc CPU) (d : CPU),
        ram_read c c.pc = Except.ok b → branchtable b = some f →
        f { c with ir := b } = Except.ok d → step c = StepRes.next (postStep d)) := by
  refine ⟨?_, ?_, ?_, ?_⟩
  · intro h
    unfold postStep
    rw [if_neg (by omega)]
  · intro h
    unfold postStep
    rw [if_pos (by omega)]
  · intro h
    unfold postStep
    rw [if_pos (by omega)]
  · intro b f d hb hf hd
    simp only [step, hb, hf, hd]

set_option maxRecDepth 8000 in
/-- Witness for C8 at a concrete state: the loaded single-instruction
program `HLT`, whose handler leaves the program counter at 0. -/
theorem c8_postStep_spec_witness :
    postStep (loadProgram [1]) = { loadProgram [1] with pc := 1 }
    ∧ step (loadProgram [1]) = StepRes.next (postStep { loadProgram [1] with
        ir := 1, running := false }) := by
  have h := c8_postStep_spec (loadProgram [1]) (by rfl)
  refine ⟨h.1 (by decide), ?_⟩
  exact h.2.2.2 1 handle_hlt { loadProgram [1] with ir := 1, running := false }
    (by rfl) (by rfl) (by rfl)

/-- C9.  When the fetched opcode byte has no entry in the dispatch table,
the run terminates immediately with the distinguished exit-status-1 result
regardless of how much fuel (how many further iterations) remains, and the
machine state at exit differs from the pre-fetch state only in the
instruction register: memory, the eight registers, the flags and hence the
stack pointer are untouched. -/
theorem c9_unknown_opcode_exits (c : CPU) (b : Int) (n : Nat)
    (hb : ram_read c c.pc = Except.ok b) (hnone : branchtable b = none) :
    run (n + 1) c = RunResult.unknownExit { c with running := true, ir := b }
    ∧ ({ c with running := true, ir := b }).ram = c.ram
    ∧ ({ c with running := true, ir := b }).reg = c.reg
    ∧ ({ c with running := true, ir := b }).fl = c.fl
    ∧ ({ c with running := true, ir := b }).pc = c.pc := by
  refine ⟨?_, rfl, rfl, rfl, rfl⟩
  have hb2 : ram_read { c with running := true } c.pc = Except.ok b := hb
  simp only [run, runLoop, step, hb2, hnone, if_pos]

set_option maxRecDepth 8000 in
/-- Witness for C9: a loaded program whose first byte 0xFF matches no
opcode. -/
theorem c9_unknown_opcode_exits_witness :
    run 5 (loadProgram [0xFF]) =
      RunResult.unknownExit { loadProgram [0xFF] with running := true, ir := 0xFF } := by
  exact (c9_unknown_opcode_exits (loadProgram [0xFF]) 0xFF 4 (by rfl) (by rfl)).1

set_option maxRecDepth 8000 in
/-- Counterexample to C2 as stated: the CALL handler does not leave the
program counter at its jump target minus one.  On `callState` (CALL R0 with
`reg[0] = 10`) the handler leaves the program counter at 10, not at
10 − 1. -/
theorem c2_call_cex :
    Except.map CPU.pc (handle_call callState) = Except.ok 10
    ∧ Except.map CPU.pc (handle_call callState) ≠ Except.ok (10 - 1) := by
  exact ⟨by rfl, by decide⟩

/-- Claim C2, amended: JMP, taken JEQ, taken JNE and RET leave the program
counter at the jump target minus 1 (so the loop's uniform `+1` makes the
next fetch land exactly on the target), but CALL leaves the program counter
at `reg[r]` itself, so the next opcode is fetched at `reg[r] + 1`. -/
theorem c2_amended (c : CPU) (r T : Int)
    (h8 : c.reg.length = 8) (hlen : c.ram.length = 256)
    (hop : pyGet c.ram (c.pc + 1) = some r) (hT : pyGet c.reg r = some T) :
    (Except.map CPU.pc (handle_jmp c) = Except.ok (T - 1))
    ∧ (c.fl = 1 → Except.map CPU.pc (handle_jeq c) = Except.ok (T - 1))
    ∧ (c.fl > 1 → Except.map CPU.pc (handle_jne c) = Except.ok (T - 1))
    ∧ (∀ s, pyGet c.reg 7 = some s → 0 ≤ s - 1 → s - 1 < 256 →
        Except.map CPU.pc (handle_call c) = Except.ok T)
    ∧ (∀ s w, pyGet c.reg 7 = some s → pyGet c.ram s = some w →
        Except.map CPU.pc (handle_ret c) = Except.ok (w - 1)) := by
  refine ⟨?_, ?_, ?_, ?_, ?_⟩
  · simp [handle_jmp, ram_read, reg_get, hop, hT, Except.map]
  · intro hfl
    simp [handle_jeq, ram_read, reg_get, hop, hT, hfl, Except.map]
  · intro hfl
    simp [handle_jne, ram_read, reg_get, hop, hT, hfl, Except.map, lt_irrefl]
  · intro s hs h0 h1
    have hset := pySet_nonneg c.reg 7 (s - 1) (by norm_num) (by rw [h8]; norm_num)
    have hw := pySet_nonneg c.ram (s - 1) (c.pc + 2) h0 (by rw [hlen]; exact_mod_cast h1)
    simp [handle_call, ram_read, reg_get, reg_set, ram_write, SP, hop, hT, hs, hset, hw,
      Except.map]
  · intro s w hs hw
    simp [handle_ret, ram_read, reg_get, reg_set, SP, hs, hw, Except.map,
      pySet_nonneg c.reg 7 (s + 1) (by norm_num) (by rw [h8]; norm_num)]

set_option maxRecDepth 8000 in
/-- Witness for the amended C2 at concrete states built from `callState`
(with the flags set to 1 for the taken JEQ and to 2 for the taken JNE). -/
theorem c2_amended_witness :
    Except.map CPU.pc (handle_jmp callState) = Except.ok (10 - 1)
    ∧ Except.map CPU.pc (handle_jeq { callState with fl := 1 }) = Except.ok (10 - 1)
    ∧ Except.map CPU.pc (handle_jne { callState with fl := 2 }) = Except.ok (10 - 1)
    ∧ Except.map CPU.pc (handle_call callState) = Except.ok 10
    ∧ Except.map CPU.pc (handle_ret callState) = Except.ok (0 - 1) := by
  have h1 := c2_amended callState 0 10 (by rfl) (by rfl) (by rfl) (by rfl)
  have h2 := c2_amended { callState with fl := 1 } 0 10 (by rfl) (by rfl) (by rfl) (by rfl)
  have h3 := c2_amended { callState with fl := 2 } 0 10 (by rfl) (by rfl) (by rfl) (by rfl)
  exact ⟨h1.1, h2.2.1 (by rfl), h3.2.2.1 (by decide),
    h1.2.2.2.1 244 (by rfl) (by decide) (by decide),
    h1.2.2.2.2 244 0 (by rfl) (by rfl)⟩

/-- Claim C3: a CALL at address P (stack pointer in range) pushes P + 2, and
when the subroutine it transfers to runs a RET (here: the RET fetched
immediately after the CALL's transfer), the next instruction is fetched from
address P + 2 — the address immediately following the 2-byte CALL, not
P + 1. -/
theorem c3_call_ret_roundtrip (c : CPU) (P r T s : Int)
    (h8 : c.reg.length = 8) (hlen : c.ram.length = 256)
    (hP : c.pc = P) (hP0 : 0 ≤ P) (hP2 : P + 2 < 256)
    (hfetch : pyGet c.ram P = some CALL)
    (hop : pyGet c.ram (P + 1) = some r)
    (hT : pyGet c.reg r = some T)
    (hs : pyGet c.reg 7 = some s) (hs1 : 1 ≤ s) (hs2 : s ≤ 256)
    (hT0 : 0 ≤ T) (hT1 : T < 255)
    (hret : pyGet c.ram (T + 1) = some RET)
    (hnc : s - 1 ≠ T + 1) :
    ∃ c1 c2, step c = StepRes.next c1
      ∧ pyGet c1.ram (s - 1) = some (P + 2)
      ∧ step c1 = StepRes.next c2
      ∧ c2.pc = P + 2 := by
  subst hP
  have hseteq := pySet_nonneg c.reg 7 (s - 1) (by omega) (by omega)
  have hweq := pySet_nonneg c.ram (s - 1) (c.pc + 2) (by omega) (by omega)
  have hstack : pyGet (c.ram.set (s - 1).toNat (c.pc + 2)) (s - 1) = some (c.pc + 2) := by
    rw [pyGet_nonneg _ _ (by omega) (by simp [List.length_set]; omega),
      getD_set_self c.ram (s - 1).toNat (c.pc + 2) (by omega)]
  have hfD : c.ram.getD (T + 1).toNat 0 = RET := by
    rw [pyGet_nonneg _ _ (by omega) (by omega)] at hret
    exact Option.some.inj hret
  have hfetch2 : pyGet (c.ram.set (s - 1).toNat (c.pc + 2)) (T + 1) = some RET := by
    rw [pyGet_nonneg _ _ (by omega) (by simp [List.length_set]; omega),
      getD_set_ne _ _ _ _ (by omega), hfD]
  have hsp2 : pyGet (c.reg.set 7 (s - 1)) 7 = some (s - 1) := by
    rw [pyGet_nonneg _ _ (by omega) (by simp [List.length_set]; omega)]
    simp [getD_set_self c.reg 7 (s - 1) (by omega),
      List.getElem?_set_self (show (7 : Nat) < c.reg.length by omega)]
  have hset2 := pySet_nonneg (c.reg.set 7 (s - 1)) 7 s (by omega)
    (by simp [List.length_set]; omega)
  refine ⟨{ c with ir := CALL, reg := c.reg.set 7 (s - 1), ram := c.ram.set (s - 1).toNat (c.pc + 2), pc := T + 1 }, { c with ir := RET, reg := (c.reg.set 7 (s - 1)).set 7 s, ram := c.ram.set (s - 1).toNat (c.pc + 2), pc := c.pc + 2 }, ?_, hstack, ?_, ?_⟩
  · simp [step, ram_read, hfetch, branchtable, CALL, NOP, HLT, RET, JMP, JEQ, JNE, PUSH,
      POP, PRA, PRN, LDI, LD, ST, INC, DEC, ADD, SUB, AND, OR, XOR, NOT, SHL, SHR, MUL,
      CMP, handle_call, reg_get, reg_set, ram_write, SP, hop, hT, hs, hseteq, hweq,
      postStep, List.length_set, hlen]
    omega
  · have hstackN := hstack
    simp only [Int.pred_toNat] at hfetch2 hsp2 hset2 hstackN
    simp [step, ram_read, hfetch2, branchtable, CALL, NOP, HLT, RET, JMP, JEQ, JNE, PUSH,
      POP, PRA, PRN, LDI, LD, ST, INC, DEC, ADD, SUB, AND, OR, XOR, NOT, SHL, SHR, MUL,
      CMP, handle_ret, reg_get, reg_set, SP, hsp2, hstackN, hset2, postStep,
      List.length_set, hlen]
    omega
  · rfl

set_option maxRecDepth 8000 in
/-- Witness for C3 on `callRetState`: CALL R0 at P = 0 with target 10 pushes
2 at memory 243, the RET at 11 pops it, and the next fetch is at 2. -/
theorem c3_call_ret_roundtrip_witness :
    ∃ c1 c2, step callRetState = StepRes.next c1
      ∧ pyGet c1.ram (244 - 1) = some (0 + 2)
      ∧ step c1 = StepRes.next c2
      ∧ c2.pc = 0 + 2 := by
  exact c3_call_ret_roundtrip callRetState 0 0 10 244 (by rfl) (by rfl) (by rfl)
    (by decide) (by decide) (by rfl) (by rfl) (by rfl) (by rfl) (by decide) (by decide)
    (by decide) (by decide) (by rfl) (by decide)

set_option maxRecDepth 8000 in
/-- Counterexample to C4 as stated: with r = 7 (the stack-pointer register
itself, an index the claim includes in 0..7), PUSH R7 then POP R7 leaves
`reg[7]` at 245, not at its pre-push value 244 = V = s. -/
theorem c4_push_pop_r7_cex :
    run 2 pushPopR7 = RunResult.fuelOut { pushPopR7 with running := true, ir := 0x46, ram := pushPopR7.ram.set 243 244, reg := [0, 0, 0, 0, 0, 0, 0, 245], pc := 4 }
    ∧ (245 : Int) ≠ 244 := by
  exact ⟨by rfl, by decide⟩

/-- Claim C4, amended: for a register index r in 0..6 (so excluding the
stack-pointer register R7, whose popped value is immediately clobbered by
the POP handler's stack-pointer increment), executing PUSH r immediately
followed by POP r leaves `reg[r]` at its original value V and the stack
pointer back at its pre-push value s, provided both stack accesses are at
in-range addresses. -/
theorem c4_push_pop_amended (c : CPU) (P r V s : Int)
    (h8 : c.reg.length = 8) (hlen : c.ram.length = 256)
    (hP : c.pc = P) (hP0 : 0 ≤ P) (hP3 : P + 3 < 255)
    (hpush : pyGet c.ram P = some PUSH)
    (hr1 : pyGet c.ram (P + 1) = some r)
    (hpop : pyGet c.ram (P + 2) = some POP)
    (hr2 : pyGet c.ram (P + 3) = some r)
    (hr : 0 ≤ r) (hr7 : r < 7)
    (hV : pyGet c.reg r = some V)
    (hs : pyGet c.reg 7 = some s) (hs1 : 1 ≤ s) (hs2 : s ≤ 256)
    (hc1 : s - 1 ≠ P + 2) (hc2 : s - 1 ≠ P + 3) :
    ∃ c1 c2, step c = StepRes.next c1 ∧ step c1 = StepRes.next c2
      ∧ pyGet c2.reg r = some V ∧ pyGet c2.reg 7 = some s := by
  subst hP
  have e1 := pySet_nonneg c.reg 7 (s - 1) (by omega) (by omega)
  have e2 := pySet_nonneg c.ram (s - 1) V (by omega) (by omega)
  have e3 := pySet_nonneg (c.reg.set 7 (s - 1)) r V hr (by simp [List.length_set]; omega)
  have e4 := pySet_nonneg ((c.reg.set 7 (s - 1)).set r.toNat V) 7 s (by omega)
    (by simp [List.length_set]; omega)
  have f1 : pyGet (c.ram.set (s - 1).toNat V) (c.pc + 2) = some POP := by
    rw [pyGet_nonneg _ _ (by omega) (by simp [List.length_set]; omega),
      getD_set_ne _ _ _ _ (by omega)]
    rw [pyGet_nonneg _ _ (by omega) (by omega)] at hpop
    exact congrArg some (Option.some.inj hpop)
  have f2 : pyGet (c.ram.set (s - 1).toNat V) (c.pc + 3) = some r := by
    rw [pyGet_nonneg _ _ (by omega) (by simp [List.length_set]; omega),
      getD_set_ne _ _ _ _ (by omega)]
    rw [pyGet_nonneg _ _ (by omega) (by omega)] at hr2
    exact congrArg some (Option.some.inj hr2)
  have f3 : pyGet (c.reg.set 7 (s - 1)) 7 = some (s - 1) := by
    rw [pyGet_nonneg _ _ (by omega) (by simp [List.length_set]; omega)]
    simp [getD_set_self c.reg 7 (s - 1) (by omega),
      List.getElem?_set_self (show (7 : Nat) < c.reg.length by omega)]
  have f4 : pyGet (c.ram.set (s - 1).toNat V) (s - 1) = some V := by
    rw [pyGet_nonneg _ _ (by omega) (by simp [List.length_set]; omega),
      getD_set_self c.ram (s - 1).toNat V (by omega)]
  have f5 : pyGet ((c.reg.set 7 (s - 1)).set r.toNat V) 7 = some (s - 1) := by
    rw [pyGet_nonneg _ _ (by omega) (by simp [List.length_set]; omega)]
    rw [getD_set_ne _ _ _ _ (by omega)]
    simp [getD_set_self c.reg 7 (s - 1) (by omega),
      List.getElem?_set_self (show (7 : Nat) < c.reg.length by omega)]
  have g1 : pyGet (((c.reg.set 7 (s - 1)).set r.toNat V).set 7 s) r = some V := by
    rw [pyGet_nonneg _ _ hr (by simp [List.length_set]; omega),
      getD_set_ne _ _ _ _ (by omega),
      getD_set_self _ _ _ (by simp [List.length_set]; omega)]
  have g2 : pyGet (((c.reg.set 7 (s - 1)).set r.toNat V).set 7 s) 7 = some s := by
    rw [pyGet_nonneg _ _ (by omega) (by simp [List.length_set]; omega)]
    simp [getD_set_self ((c.reg.set 7 (s - 1)).set r.toNat V) 7 s
        (by simp [List.length_set]; omega),
      List.getElem?_set_self
        (show (7 : Nat) < ((c.reg.set 7 (s - 1)).set r.toNat V).length
          by simp [List.length_set]; omega)]
  refine ⟨{ c with ir := PUSH, reg := c.reg.set 7 (s - 1), ram := c.ram.set (s - 1).toNat V, pc := c.pc + 2 }, { c with ir := POP, reg := ((c.reg.set 7 (s - 1)).set r.toNat V).set 7 s, ram := c.ram.set (s - 1).toNat V, pc := c.pc + 4 }, ?_, ?_, g1, g2⟩
  · simp [step, ram_read, hpush, branchtable, CALL, NOP, HLT, RET, JMP, JEQ, JNE, PUSH,
      POP, PRA, PRN, LDI, LD, ST, INC, DEC, ADD, SUB, AND, OR, XOR, NOT, SHL, SHR, MUL,
      CMP, handle_push, reg_get, reg_set, ram_write, SP, hr1, hV, hs, e1, e2, postStep,
      List.length_set, hlen, (show ¬ ((255 : Int) ≤ c.pc + 1) by omega),
      (show (c.pc : Int) + 1 + 1 = c.pc + 2 by ring)]
  · simp only [Int.pred_toNat] at f1 f2 f3 f4 f5 e3 e4
    simp [step, ram_read, f1, branchtable, CALL, NOP, HLT, RET, JMP, JEQ, JNE, PUSH,
      POP, PRA, PRN, LDI, LD, ST, INC, DEC, ADD, SUB, AND, OR, XOR, NOT, SHL, SHR, MUL,
      CMP, handle_pop, reg_get, reg_set, SP, f2, f3, f4, f5, e3, e4, postStep,
      List.length_set, hlen, (show ¬ ((255 : Int) ≤ c.pc + 3) by omega),
      (show (c.pc : Int) + 2 + 1 = c.pc + 3 by ring),
      (show (c.pc : Int) + 3 + 1 = c.pc + 4 by ring)]

set_option maxRecDepth 8000 in
/-- Witness for the amended C4 on `pushPopState`: PUSH R0; POP R0 with
`reg[0] = 42` restores `reg[0] = 42` and the stack pointer 244. -/
theorem c4_push_pop_amended_witness :
    ∃ c1 c2, step pushPopState = StepRes.next c1 ∧ step c1 = StepRes.next c2
      ∧ pyGet c2.reg 0 = some 42 ∧ pyGet c2.reg 7 = some 244 := by
  exact c4_push_pop_amended pushPopState 0 0 42 244 (by rfl) (by rfl) (by rfl)
    (by decide) (by decide) (by rfl) (by rfl) (by rfl) (by rfl) (by decide) (by decide)
    (by rfl) (by rfl) (by decide) (by decide) (by decide) (by decide)

/-- Claim C5: the AND, OR and XOR instructions compute the destination's new
value from the source register alone — `reg[b] OP reg[b]`, not
`reg[a] OP reg[b]` — so for all register contents AND and OR store
`reg[b]`'s value into `reg[a]` and XOR stores 0. -/
theorem c5_bitwise_src_op_src (c : CPU) (a b vb : Int)
    (h8 : c.reg.length = 8)
    (ha : pyGet c.ram (c.pc + 1) = some a)
    (hb : pyGet c.ram (c.pc + 2) = some b)
    (ha0 : 0 ≤ a) (ha8 : a < 8)
    (hvb : pyGet c.reg b = some vb) :
    Except.map (fun d => pyGet d.reg a) (handle_and c) = Except.ok (some vb)
    ∧ Except.map (fun d => pyGet d.reg a) (handle_or c) = Except.ok (some vb)
    ∧ Except.map (fun d => pyGet d.reg a) (handle_xor c) = Except.ok (some 0) := by
  have e1 := pySet_nonneg c.reg a vb ha0 (by omega)
  have e2 := pySet_nonneg c.reg a 0 ha0 (by omega)
  have g1 : pyGet (c.reg.set a.toNat vb) a = some vb := by
    rw [pyGet_nonneg _ _ ha0 (by simp [List.length_set]; omega),
      getD_set_self c.reg a.toNat vb (by omega)]
  have g2 : pyGet (c.reg.set a.toNat 0) a = some 0 := by
    rw [pyGet_nonneg _ _ ha0 (by simp [List.length_set]; omega),
      getD_set_self c.reg a.toNat 0 (by omega)]
  refine ⟨?_, ?_, ?_⟩
  · simp [handle_and, alu, ADD, SUB, MUL, INC, DEC, AND, OR, XOR, NOT, SHL, SHR, CMP,
      ram_read, reg_get, reg_set, argVal, ha, hb, hvb, Int.land_self, e1, g1, Except.map]
  · simp [handle_or, alu, ADD, SUB, MUL, INC, DEC, AND, OR, XOR, NOT, SHL, SHR, CMP,
      ram_read, reg_get, reg_set, argVal, ha, hb, hvb, Int.lor_self, e1, g1, Except.map]
  · simp [handle_xor, alu, ADD, SUB, MUL, INC, DEC, AND, OR, XOR, NOT, SHL, SHR, CMP,
      ram_read, reg_get, reg_set, argVal, ha, hb, hvb, Int.xor_self, e2, g2, Except.map]

set_option maxRecDepth 8000 in
/-- Witness for C5 on `andState` (destination R0 holding 5, source R1
holding 12): AND and OR leave R0 = 12, XOR leaves R0 = 0. -/
theorem c5_bitwise_src_op_src_witness :
    Except.map (fun d => pyGet d.reg 0) (handle_and andState) = Except.ok (some 12)
    ∧ Except.map (fun d => pyGet d.reg 0) (handle_or andState) = Except.ok (some 12)
    ∧ Except.map (fun d => pyGet d.reg 0) (handle_xor andState) = Except.ok (some 0) := by
  exact c5_bitwise_src_op_src andState 0 1 12 (by rfl) (by rfl) (by rfl) (by decide)
    (by decide) (by rfl)

/-- Claim C6: JEQ jumps (the step ends with the program counter at `reg[r]`,
where the next fetch happens) exactly when the flags equal 1, the Equal
encoding, and JNE jumps exactly when the flags are numerically greater
than 1; in every other case — including flags = 0, the initial value, for
which neither jumps — the handler falls through, consuming its operand
byte, so the step ends with the program counter two bytes past the
opcode. -/
theorem c6_jeq_jne_conditions (c : CPU) (r T : Int)
    (hlen : c.ram.length = 256)
    (hpc0 : 0 ≤ c.pc) (hpc : c.pc + 2 < 256) (hTlt : T < 256)
    (hr : pyGet c.ram (c.pc + 1) = some r)
    (hT : pyGet c.reg r = some T) :
    (pyGet c.ram c.pc = some JEQ →
      (c.fl = 1 → step c = StepRes.next { c with ir := JEQ, pc := T })
      ∧ (c.fl ≠ 1 → step c = StepRes.next { c with ir := JEQ, pc := c.pc + 2 }))
    ∧ (pyGet c.ram c.pc = some JNE →
      (c.fl > 1 → step c = StepRes.next { c with ir := JNE, pc := T })
      ∧ (¬ c.fl > 1 → step c = StepRes.next { c with ir := JNE, pc := c.pc + 2 })) := by
  constructor
  · intro hop
    constructor
    · intro hfl
      simp [step, ram_read, hop, branchtable, CALL, NOP, HLT, RET, JMP, JEQ, JNE, PUSH,
        POP, PRA, PRN, LDI, LD, ST, INC, DEC, ADD, SUB, AND, OR, XOR, NOT, SHL, SHR, MUL,
        CMP, handle_jeq, reg_get, hr, hT, hfl, postStep, hlen,
        (show ¬ ((255 : Int) ≤ T - 1) by omega), (show (T : Int) - 1 + 1 = T by ring)]
    · intro hfl
      simp [step, ram_read, hop, branchtable, CALL, NOP, HLT, RET, JMP, JEQ, JNE, PUSH,
        POP, PRA, PRN, LDI, LD, ST, INC, DEC, ADD, SUB, AND, OR, XOR, NOT, SHL, SHR, MUL,
        CMP, handle_jeq, reg_get, hr, hT, hfl, postStep, hlen,
        (show ¬ ((255 : Int) ≤ c.pc + 1) by omega),
        (show (c.pc : Int) + 1 + 1 = c.pc + 2 by ring)]
  · intro hop
    constructor
    · intro hfl
      simp [step, ram_read, hop, branchtable, CALL, NOP, HLT, RET, JMP, JEQ, JNE, PUSH,
        POP, PRA, PRN, LDI, LD, ST, INC, DEC, ADD, SUB, AND, OR, XOR, NOT, SHL, SHR, MUL,
        CMP, handle_jne, reg_get, hr, hT, hfl, postStep, hlen,
        (show ¬ ((255 : Int) ≤ T - 1) by omega), (show (T : Int) - 1 + 1 = T by ring)]
    · intro hfl
      simp [step, ram_read, hop, branchtable, CALL, NOP, HLT, RET, JMP, JEQ, JNE, PUSH,
        POP, PRA, PRN, LDI, LD, ST, INC, DEC, ADD, SUB, AND, OR, XOR, NOT, SHL, SHR, MUL,
        CMP, handle_jne, reg_get, hr, hT, hfl, postStep, hlen,
        (show ¬ ((255 : Int) ≤ c.pc + 1) by omega),
        (show (c.pc : Int) + 1 + 1 = c.pc + 2 by ring)]

set_option maxRecDepth 8000 in
/-- Witness for C6: JEQ jumps at flags 1 and falls through at the initial
flags 0; JNE jumps at flags 2 and falls through at flags 1. -/
theorem c6_jeq_jne_conditions_witness :
    step { jeqState with fl := 1 } = StepRes.next { jeqState with fl := 1, ir := 0x55, pc := 10 }
    ∧ step jeqState = StepRes.next { jeqState with ir := 0x55, pc := 2 }
    ∧ step { jneState with fl := 2 } = StepRes.next { jneState with fl := 2, ir := 0x56, pc := 10 }
    ∧ step { jneState with fl := 1 } = StepRes.next { jneState with fl := 1, ir := 0x56, pc := 2 } := by
  refine ⟨?_, ?_, ?_, ?_⟩
  · exact ((c6_jeq_jne_conditions { jeqState with fl := 1 } 0 10 (by rfl) (by decide)
      (by decide) (by decide) (by rfl) (by rfl)).1 (by rfl)).1 (by rfl)
  · exact ((c6_jeq_jne_conditions jeqState 0 10 (by rfl) (by decide)
      (by decide) (by decide) (by rfl) (by rfl)).1 (by rfl)).2 (by decide)
  · exact ((c6_jeq_jne_conditions { jneState with fl := 2 } 0 10 (by rfl) (by decide)
      (by decide) (by decide) (by rfl) (by rfl)).2 (by rfl)).1 (by decide)
  · exact ((c6_jeq_jne_conditions { jneState with fl := 1 } 0 10 (by rfl) (by decide)
      (by decide) (by decide) (by rfl) (by rfl)).2 (by rfl)).2 (by decide)


set_option linter.unreachableTactic false in
set_option linter.unusedTactic false in
theorem fl_alu (op : Int) (c : CPU) (ra : Int) (rb : Option Int) (d : CPU)
    (h : alu op c ra rb = Except.ok d) : d.fl = c.fl := by
  cases rb with
  | none =>
    unfold alu at h
    by_cases h1 : op = ADD
    · rw [if_pos h1] at h
      repeat' (first | split at h | simp only [reg_get, reg_set, argVal, pyShl, pyShr, ok_bind, error_bind, pure_ok] at h)
      all_goals (first | (injection h with h2; rw [← h2]) | simp at h)
    · rw [if_neg h1] at h
      by_cases h2 : op = SUB
      · rw [if_pos h2] at h
        repeat' (first | split at h | simp only [reg_get, reg_set, argVal, pyShl, pyShr, ok_bind, error_bind, pure_ok] at h)
        all_goals (first | (injection h with h2; rw [← h2]) | simp at h)
      · rw [if_neg h2] at h
        by_cases h3 : op = MUL
        · rw [if_pos h3] at h
          repeat' (first | split at h | simp only [reg_get, reg_set, argVal, pyShl, pyShr, ok_bind, error_bind, pure_ok] at h)
          all_goals (first | (injection h with h2; rw [← h2]) | simp at h)
        · rw [if_neg h3] at h
          by_cases h4 : op = INC
          · rw [if_pos h4] at h
            repeat' (first | split at h | simp only [reg_get, reg_set, argVal, pyShl, pyShr, ok_bind, error_bind, pure_ok] at h)
            all_goals (first | (injection h with h2; rw [← h2]) | simp at h)
          · rw [if_neg h4] at h
            by_cases h5 : op = DEC
            · rw [if_pos h5] at h
              repeat' (first | split at h | simp only [reg_get, reg_set, argVal, pyShl, pyShr, ok_bind, error_bind, pure_ok] at h)
              all_goals (first | (injection h with h2; rw [← h2]) | simp at h)
            · rw [if_neg h5] at h
              by_cases h6 : op = AND
              · rw [if_pos h6] at h
                repeat' (first | split at h | simp only [reg_get, reg_set, argVal, pyShl, pyShr, ok_bind, error_bind, pure_ok] at h)
                all_goals (first | (injection h with h2; rw [← h2]) | simp at h)
              · rw [if_neg h6] at h
                by_cases h7 : op = OR
                · rw [if_pos h7] at h
                  repeat' (first | split at h | simp only [reg_get, reg_set, argVal, pyShl, pyShr, ok_bind, error_bind, pure_ok] at h)
                  all_goals (first | (injection h with h2; rw [← h2]) | simp at h)
                · rw [if_neg h7] at h
                  by_cases h8 : op = XOR
                  · rw [if_pos h8] at h
                    repeat' (first | split at h | simp only [reg_get, reg_set, argVal, pyShl, pyShr, ok_bind, error_bind, pure_ok] at h)
                    all_goals (first | (injection h with h2; rw [← h2]) | simp at h)
                  · rw [if_neg h8] at h
                    by_cases h9 : op = NOT
                    · rw [if_pos h9] at h
                      repeat' (first | split at h | simp only [reg_get, reg_set, argVal, pyShl, pyShr, ok_bind, error_bind, pure_ok] at h)
                      all_goals (first | (injection h with h2; rw [← h2]) | simp at h)
                    · rw [if_neg h9] at h
                      by_cases h10 : op = SHL
                      · rw [if_pos h10] at h
                        repeat' (first | split at h | simp only [reg_get, reg_set, argVal, pyShl, pyShr, ok_bind, error_bind, pure_ok] at h)
                        all_goals (first | (injection h with h2; rw [← h2]) | simp at h)
                      · rw [if_neg h10] at h
                        by_cases h11 : op = SHR
                        · rw [if_pos h11] at h
                          repeat' (first | split at h | simp only [reg_get, reg_set, argVal, pyShl, pyShr, ok_bind, error_bind, pure_ok] at h)
                          all_goals (first | (injection h with h2; rw [← h2]) | simp at h)
                        · rw [if_neg h11] at h
                          simp at h
  | some b =>
    unfold alu at h
    by_cases h1 : op = ADD
    · rw [if_pos h1] at h
      repeat' (first | split at h | simp only [reg_get, reg_set, argVal, pyShl, pyShr, ok_bind, error_bind, pure_ok] at h)
      all_goals (first | (injection h with h2; rw [← h2]) | simp at h)
    · rw [if_neg h1] at h
      by_cases h2 : op = SUB
      · rw [if_pos h2] at h
        repeat' (first | split at h | simp only [reg_get, reg_set, argVal, pyShl, pyShr, ok_bind, error_bind, pure_ok] at h)
        all_goals (first | (injection h with h2; rw [← h2]) | simp at h)
      · rw [if_neg h2] at h
        by_cases h3 : op = MUL
        · rw [if_pos h3] at h
          repeat' (first | split at h | simp only [reg_get, reg_set, argVal, pyShl, pyShr, ok_bind, error_bind, pure_ok] at h)
          all_goals (first | (injection h with h2; rw [← h2]) | simp at h)
        · rw [if_neg h3] at h
          by_cases h4 : op = INC
          · rw [if_pos h4] at h
            repeat' (first | split at h | simp only [reg_get, reg_set, argVal, pyShl, pyShr, ok_bind, error_bind, pure_ok] at h)
            all_goals (first | (injection h with h2; rw [← h2]) | simp at h)
          · rw [if_neg h4] at h
            by_cases h5 : op = DEC
            · rw [if_pos h5] at h
              repeat' (first | split at h | simp only [reg_get, reg_set, argVal, pyShl, pyShr, ok_bind, error_bind, pure_ok] at h)
              all_goals (first | (injection h with h2; rw [← h2]) | simp at h)
            · rw [if_neg h5] at h
              by_cases h6 : op = AND
              · rw [if_pos h6] at h
                repeat' (first | split at h | simp only [reg_get, reg_set, argVal, pyShl, pyShr, ok_bind, error_bind, pure_ok] at h)
                all_goals (first | (injection h with h2; rw [← h2]) | simp at h)
              · rw [if_neg h6] at h
                by_cases h7 : op = OR
                · rw [if_pos h7] at h
                  repeat' (first | split at h | simp only [reg_get, reg_set, argVal, pyShl, pyShr, ok_bind, error_bind, pure_ok] at h)
                  all_goals (first | (injection h with h2; rw [← h2]) | simp at h)
                · rw [if_neg h7] at h
                  by_cases h8 : op = XOR
                  · rw [if_pos h8] at h
                    repeat' (first | split at h | simp only [reg_get, reg_set, argVal, pyShl, pyShr, ok_bind, error_bind, pure_ok] at h)
                    all_goals (first | (injection h with h2; rw [← h2]) | simp at h)
                  · rw [if_neg h8] at h
                    by_cases h9 : op = NOT
                    · rw [if_pos h9] at h
                      repeat' (first | split at h | simp only [reg_get, reg_set, argVal, pyShl, pyShr, ok_bind, error_bind, pure_ok] at h)
                      all_goals (first | (injection h with h2; rw [← h2]) | simp at h)
                    · rw [if_neg h9] at h
                      by_cases h10 : op = SHL
                      · rw [if_pos h10] at h
                        repeat' (first | split at h | simp only [reg_get, reg_set, argVal, pyShl, pyShr, ok_bind, error_bind, pure_ok] at h)
                        all_goals (first | (injection h with h2; rw [← h2]) | simp at h)
                      · rw [if_neg h10] at h
                        by_cases h11 : op = SHR
                        · rw [if_pos h11] at h
                          repeat' (first | split at h | simp only [reg_get, reg_set, argVal, pyShl, pyShr, ok_bind, error_bind, pure_ok] at h)
                          all_goals (first | (injection h with h2; rw [← h2]) | simp at h)
                        · rw [if_neg h11] at h
                          simp at h

theorem fl_alu_then_pc (op : Int) (c : CPU) (ra : Int) (rb : Option Int) (k : Int) (d : CPU)
    (h : (alu op c ra rb >>= fun c2 => pure { c2 with pc := c2.pc + k }) = Except.ok d) :
    d.fl = c.fl := by
  cases ha : alu op c ra rb with
  | error e => rw [ha] at h; simp at h
  | ok c2 =>
    rw [ha] at h
    simp only [ok_bind, pure_ok] at h
    have h3 := fl_alu op c ra rb c2 ha
    injection h with h2
    rw [← h2]
    exact h3

theorem fl_nop (c d : CPU) (h : handle_nop c = Except.ok d) : d.fl = c.fl := by
  injection h with h2
  rw [← h2]

theorem fl_hlt (c d : CPU) (h : handle_hlt c = Except.ok d) : d.fl = c.fl := by
  injection h with h2
  rw [← h2]

theorem fl_ret (c d : CPU) (h : handle_ret c = Except.ok d) : d.fl = c.fl := by
  simp only [handle_ret, ram_read, reg_get, reg_set] at h
  repeat' (first | split at h | simp only [ok_bind, error_bind, pure_ok] at h)
  all_goals (first | (injection h with h2; rw [← h2]) | simp at h)

theorem fl_call (c d : CPU) (h : handle_call c = Except.ok d) : d.fl = c.fl := by
  simp only [handle_call, ram_read, reg_get, reg_set, ram_write] at h
  repeat' (first | split at h | simp only [ok_bind, error_bind, pure_ok] at h)
  all_goals (first | (injection h with h2; rw [← h2]) | simp at h)

theorem fl_jmp (c d : CPU) (h : handle_jmp c = Except.ok d) : d.fl = c.fl := by
  simp only [handle_jmp, ram_read, reg_get] at h
  repeat' (first | split at h | simp only [ok_bind, error_bind, pure_ok] at h)
  all_goals (first | (injection h with h2; rw [← h2]) | simp at h)

theorem fl_jeq (c d : CPU) (h : handle_jeq c = Except.ok d) : d.fl = c.fl := by
  simp only [handle_jeq, ram_read, reg_get] at h
  repeat' (first | split at h | simp only [ok_bind, error_bind, pure_ok] at h)
  all_goals (first | (injection h with h2; rw [← h2]) | simp at h)

theorem fl_jne (c d : CPU) (h : handle_jne c = Except.ok d) : d.fl = c.fl := by
  simp only [handle_jne, ram_read, reg_get] at h
  repeat' (first | split at h | simp only [ok_bind, error_bind, pure_ok] at h)
  all_goals (first | (injection h with h2; rw [← h2]) | simp at h)

theorem fl_push (c d : CPU) (h : handle_push c = Except.ok d) : d.fl = c.fl := by
  simp only [handle_push, ram_read, reg_get, reg_set, ram_write] at h
  repeat' (first | split at h | simp only [ok_bind, error_bind, pure_ok] at h)
  all_goals (first | (injection h with h2; rw [← h2]) | simp at h)

theorem fl_pop (c d : CPU) (h : handle_pop c = Except.ok d) : d.fl = c.fl := by
  simp only [handle_pop, ram_read, reg_get, reg_set] at h
  repeat' (first | split at h | simp only [ok_bind, error_bind, pure_ok] at h)
  all_goals (first | (injection h with h2; rw [← h2]) | simp at h)

theorem fl_pra (c d : CPU) (h : handle_pra c = Except.ok d) : d.fl = c.fl := by
  simp only [handle_pra, ram_read, reg_get] at h
  repeat' (first | split at h | simp only [ok_bind, error_bind, pure_ok] at h)
  all_goals (first | (injection h with h2; rw [← h2]) | simp at h)

theorem fl_prn (c d : CPU) (h : handle_prn c = Except.ok d) : d.fl = c.fl := by
  simp only [handle_prn, ram_read, reg_get] at h
  repeat' (first | split at h | simp only [ok_bind, error_bind, pure_ok] at h)
  all_goals (first | (injection h with h2; rw [← h2]) | simp at h)

theorem fl_ldi (c d : CPU) (h : handle_ldi c = Except.ok d) : d.fl = c.fl := by
  simp only [handle_ldi, ram_read, reg_set] at h
  repeat' (first | split at h | simp only [ok_bind, error_bind, pure_ok] at h)
  all_goals (first | (injection h with h2; rw [← h2]) | simp at h)

theorem fl_ld (c d : CPU) (h : handle_ld c = Except.ok d) : d.fl = c.fl := by
  simp only [handle_ld, ram_read, reg_set] at h
  repeat' (first | split at h | simp only [ok_bind, error_bind, pure_ok] at h)
  all_goals (first | (injection h with h2; rw [← h2]) | simp at h)

theorem fl_st (c d : CPU) (h : handle_st c = Except.ok d) : d.fl = c.fl := by
  simp only [handle_st, ram_read, reg_get, reg_set] at h
  repeat' (first | split at h | simp only [ok_bind, error_bind, pure_ok] at h)
  all_goals (first | (injection h with h2; rw [← h2]) | simp at h)

theorem fl_inc (c d : CPU) (h : handle_inc c = Except.ok d) : d.fl = c.fl := by
  simp only [handle_inc, ram_read] at h
  repeat' (first | split at h | simp only [ok_bind, error_bind, pure_ok] at h)
  all_goals (first | exact fl_alu_then_pc _ _ _ _ _ _ h | simp at h)

theorem fl_dec (c d : CPU) (h : handle_dec c = Except.ok d) : d.fl = c.fl := by
  simp only [handle_dec, ram_read] at h
  repeat' (first | split at h | simp only [ok_bind, error_bind, pure_ok] at h)
  all_goals (first | exact fl_alu_then_pc _ _ _ _ _ _ h | simp at h)

theorem fl_add (c d : CPU) (h : handle_add c = Except.ok d) : d.fl = c.fl := by
  simp only [handle_add, ram_read] at h
  repeat' (first | split at h | simp only [ok_bind, error_bind, pure_ok] at h)
  all_goals (first | exact fl_alu_then_pc _ _ _ _ _ _ h | simp at h)

theorem fl_sub (c d : CPU) (h : handle_sub c = Except.ok d) : d.fl = c.fl := by
  simp only [handle_sub, ram_read] at h
  repeat' (first | split at h | simp only [ok_bind, error_bind, pure_ok] at h)
  all_goals (first | exact fl_alu_then_pc _ _ _ _ _ _ h | simp at h)

theorem fl_and (c d : CPU) (h : handle_and c = Except.ok d) : d.fl = c.fl := by
  simp only [handle_and, ram_read] at h
  repeat' (first | split at h | simp only [ok_bind, error_bind, pure_ok] at h)
  all_goals (first | exact fl_alu_then_pc _ _ _ _ _ _ h | simp at h)

theorem fl_or (c d : CPU) (h : handle_or c = Except.ok d) : d.fl = c.fl := by
  simp only [handle_or, ram_read] at h
  repeat' (first | split at h | simp only [ok_bind, error_bind, pure_ok] at h)
  all_goals (first | exact fl_alu_then_pc _ _ _ _ _ _ h | simp at h)

theorem fl_xor (c d : CPU) (h : handle_xor c = Except.ok d) : d.fl = c.fl := by
  simp only [handle_xor, ram_read] at h
  repeat' (first | split at h | simp only [ok_bind, error_bind, pure_ok] at h)
  all_goals (first | exact fl_alu_then_pc _ _ _ _ _ _ h | simp at h)

theorem fl_not (c d : CPU) (h : handle_not c = Except.ok d) : d.fl = c.fl := by
  simp only [handle_not, ram_read] at h
  repeat' (first | split at h | simp only [ok_bind, error_bind, pure_ok] at h)
  all_goals (first | exact fl_alu_then_pc _ _ _ _ _ _ h | simp at h)

theorem fl_shl (c d : CPU) (h : handle_shl c = Except.ok d) : d.fl = c.fl := by
  simp only [handle_shl, ram_read] at h
  repeat' (first | split at h | simp only [ok_bind, error_bind, pure_ok] at h)
  all_goals (first | exact fl_alu_then_pc _ _ _ _ _ _ h | simp at h)

theorem fl_shr (c d : CPU) (h : handle_shr c = Except.ok d) : d.fl = c.fl := by
  simp only [handle_shr, ram_read] at h
  repeat' (first | split at h | simp only [ok_bind, error_bind, pure_ok] at h)
  all_goals (first | exact fl_alu_then_pc _ _ _ _ _ _ h | simp at h)

theorem fl_mul (c d : CPU) (h : handle_mul c = Except.ok d) : d.fl = c.fl := by
  simp only [handle_mul, ram_read] at h
  repeat' (first | split at h | simp only [ok_bind, error_bind, pure_ok] at h)
  all_goals (first | exact fl_alu_then_pc _ _ _ _ _ _ h | simp at h)

theorem fl_cmp_sets (c d : CPU) (h : handle_cmp c = Except.ok d) :
    d.fl = 1 ∨ d.fl = 2 ∨ d.fl = 4 := by
  simp only [handle_cmp, ram_read, reg_get] at h
  repeat' (first | split at h | simp only [ok_bind, error_bind, pure_ok] at h)
  all_goals (first | (injection h with h2; rw [← h2]) | simp at h)
  all_goals (first | (simp; done) | omega)

theorem fl_branchtable (ir : Int) (f : CPU → Except Exc CPU)
    (hf : branchtable ir = some f) (hne : ir ≠ CMP) :
    ∀ c d, f c = Except.ok d → d.fl = c.fl := by
  unfold branchtable at hf
  by_cases e1 : ir = NOP
  · rw [if_pos e1] at hf
    injection hf with hf2
    subst hf2
    exact fl_nop
  · rw [if_neg e1] at hf
    by_cases e2 : ir = HLT
    · rw [if_pos e2] at hf
      injection hf with hf2
      subst hf2
      exact fl_hlt
    · rw [if_neg e2] at hf
      by_cases e3 : ir = RET
      · rw [if_pos e3] at hf
        injection hf with hf2
        subst hf2
        exact fl_ret
      · rw [if_neg e3] at hf
        by_cases e4 : ir = CALL
        · rw [if_pos e4] at hf
          injection hf with hf2
          subst hf2
          exact fl_call
        · rw [if_neg e4] at hf
          by_cases e5 : ir = JMP
          · rw [if_pos e5] at hf
            injection hf with hf2
            subst hf2
            exact fl_jmp
          · rw [if_neg e5] at hf
            by_cases e6 : ir = JEQ
            · rw [if_pos e6] at hf
              injection hf with hf2
              subst hf2
              exact fl_jeq
            · rw [if_neg e6] at hf
              by_cases e7 : ir = JNE
              · rw [if_pos e7] at hf
                injection hf with hf2
                subst hf2
                exact fl_jne
              · rw [if_neg e7] at hf
                by_cases e8 : ir = PUSH
                · rw [if_pos e8] at hf
                  injection hf with hf2
                  subst hf2
                  exact fl_push
                · rw [if_neg e8] at hf
                  by_cases e9 : ir = POP
                  · rw [if_pos e9] at hf
                    injection hf with hf2
                    subst hf2
                    exact fl_pop
                  · rw [if_neg e9] at hf
                    by_cases e10 : ir = PRA
                    · rw [if_pos e10] at hf
                      injection hf with hf2
                      subst hf2
                      exact fl_pra
                    · rw [if_neg e10] at hf
                      by_cases e11 : ir = PRN
                      · rw [if_pos e11] at hf
                        injection hf with hf2
                        subst hf2
                        exact fl_prn
                      · rw [if_neg e11] at hf
                        by_cases e12 : ir = LDI
                        · rw [if_pos e12] at hf
                          injection hf with hf2
                          subst hf2
                          exact fl_ldi
                        · rw [if_neg e12] at hf
                          by_cases e13 : ir = LD
                          · rw [if_pos e13] at hf
                            injection hf with hf2
                            subst hf2
                            exact fl_ld
                          · rw [if_neg e13] at hf
                            by_cases e14 : ir = ST
                            · rw [if_pos e14] at hf
                              injection hf with hf2
                              subst hf2
                              exact fl_st
                            · rw [if_neg e14] at hf
                              by_cases e15 : ir = INC
                              · rw [if_pos e15] at hf
                                injection hf with hf2
                                subst hf2
                                exact fl_inc
                              · rw [if_neg e15] at hf
                                by_cases e16 : ir = DEC
                                · rw [if_pos e16] at hf
                                  injection hf with hf2
                                  subst hf2
                                  exact fl_dec
                                · rw [if_neg e16] at hf
                                  by_cases e17 : ir = ADD
                                  · rw [if_pos e17] at hf
                                    injection hf with hf2
                                    subst hf2
                                    exact fl_add
                                  · rw [if_neg e17] at hf
                                    by_cases e18 : ir = SUB
                                    · rw [if_pos e18] at hf
                                      injection hf with hf2
                                      subst hf2
                                      exact fl_sub
                                    · rw [if_neg e18] at hf
                                      by_cases e19 : ir = AND
                                      · rw [if_pos e19] at hf
                                        injection hf with hf2
                                        subst hf2
                                        exact fl_and
                                      · rw [if_neg e19] at hf
                                        by_cases e20 : ir = OR
                                        · rw [if_pos e20] at hf
                                          injection hf with hf2
                                          subst hf2
                                          exact fl_or
                                        · rw [if_neg e20] at hf
                                          by_cases e21 : ir = XOR
                                          · rw [if_pos e21] at hf
                                            injection hf with hf2
                                            subst hf2
                                            exact fl_xor
                                          · rw [if_neg e21] at hf
                                            by_cases e22 : ir = NOT
                                            · rw [if_pos e22] at hf
                                              injection hf with hf2
                                              subst hf2
                                              exact fl_not
                                            · rw [if_neg e22] at hf
                                              by_cases e23 : ir = SHL
                                              · rw [if_pos e23] at hf
                                                injection hf with hf2
                                                subst hf2
                                                exact fl_shl
                                              · rw [if_neg e23] at hf
                                                by_cases e24 : ir = SHR
                                                · rw [if_pos e24] at hf
                                                  injection hf with hf2
                                                  subst hf2
                                                  exact fl_shr
                                                · rw [if_neg e24] at hf
                                                  by_cases e25 : ir = MUL
                                                  · rw [if_pos e25] at hf
                                                    injection hf with hf2
                                                    subst hf2
                                                    exact fl_mul
                                                  · rw [if_neg e25] at hf
                                                    by_cases e26 : ir = CMP
                                                    · exact absurd e26 hne
                                                    · rw [if_neg e26] at hf
                                                      simp at hf

/-- Claim C7: only the CMP instruction modifies the flags register.  For
every successful step: if the fetched opcode is CMP the new flags value is
exactly one of the three distinct encodings 1 (Equal), 2 (Greater-than) or
4 (Less-than), never a combination; if it is any other opcode the flags are
unchanged; consequently flags membership in {0, 1, 2, 4} is preserved by
every step (and 0, the initial value, survives only until the first CMP). -/
theorem c7_cmp_only_flags (c c2 : CPU) (h : step c = StepRes.next c2) :
    (pyGet c.ram c.pc = some CMP → (c2.fl = 1 ∨ c2.fl = 2 ∨ c2.fl = 4))
    ∧ (pyGet c.ram c.pc ≠ some CMP → c2.fl = c.fl)
    ∧ ((c.fl = 0 ∨ c.fl = 1 ∨ c.fl = 2 ∨ c.fl = 4) →
       (c2.fl = 0 ∨ c2.fl = 1 ∨ c2.fl = 2 ∨ c2.fl = 4)) := by
  unfold step ram_read at h
  cases hfetch : pyGet c.ram c.pc with
  | none => simp [hfetch] at h
  | some ir =>
    simp only [hfetch] at h
    cases hbt : branchtable ir with
    | none => simp [hbt] at h
    | some f =>
      simp only [hbt] at h
      cases hrun : f { c with ir := ir } with
      | error e => simp [hrun] at h
      | ok e =>
        simp only [hrun] at h
        have hc2 : c2 = postStep e := by
          injection h with h2
          exact h2.symm
        have hfl2 : c2.fl = e.fl := by
          rw [hc2]
          unfold postStep
          split <;> rfl
        by_cases hcmp : ir = CMP
        · subst hcmp
          have hfcmp : f = handle_cmp := by
            rw [show branchtable CMP = some handle_cmp from rfl] at hbt
            exact (Option.some.inj hbt).symm
          subst hfcmp
          have h3 := fl_cmp_sets _ _ hrun
          refine ⟨fun _ => by omega, fun hne => absurd rfl hne, fun _ => by omega⟩
        · have h3 := fl_branchtable ir f hbt hcmp _ _ hrun
          have h4 : e.fl = c.fl := h3
          exact ⟨fun hcm => absurd (Option.some.inj hcm) hcmp, fun _ => by omega,
            fun hm => by omega⟩



/-- Claim C10: when PUSH or CALL decrements the stack pointer to a negative
value n with -256 <= n < 0, the subsequent memory write succeeds (no
out-of-range error) and lands on address 256 + n at the top of memory,
silently overwriting high memory; symmetrically POP and RET at a negative
stack-pointer value s read from address 256 + s. -/
theorem c10_negative_sp_alias (c : CPU) (r V s : Int)
    (h8 : c.reg.length = 8) (hlen : c.ram.length = 256)
    (hr1 : pyGet c.ram (c.pc + 1) = some r)
    (hr0 : 0 ≤ r) (hr7 : r < 7)
    (hV : pyGet c.reg r = some V)
    (hs : pyGet c.reg 7 = some s) :
    ((-256 ≤ s - 1 ∧ s - 1 < 0) →
      handle_push c = Except.ok { c with reg := c.reg.set 7 (s - 1), ram := c.ram.set (256 + (s - 1)).toNat V, pc := c.pc + 1 }
      ∧ handle_call c = Except.ok { c with reg := c.reg.set 7 (s - 1), ram := c.ram.set (256 + (s - 1)).toNat (c.pc + 2), pc := V })
    ∧ ((-256 ≤ s ∧ s < 0) → ∀ W, pyGet c.ram (256 + s) = some W →
      handle_pop c = Except.ok { c with reg := (c.reg.set r.toNat W).set 7 (s + 1), pc := c.pc + 1 }
      ∧ handle_ret c = Except.ok { c with reg := c.reg.set 7 (s + 1), pc := W - 1 }) := by
  constructor
  · intro hneg
    have ereg := pySet_nonneg c.reg 7 (s - 1) (by omega) (by omega)
    have ew := pySet_negIdx c.ram (s - 1) V (by omega) (by omega)
    have ew2 := pySet_negIdx c.ram (s - 1) (c.pc + 2) (by omega) (by omega)
    simp only [hlen, Nat.cast_ofNat] at ew ew2
    constructor
    · simp [handle_push, ram_read, reg_get, reg_set, ram_write, SP, hr1, hV, hs, ereg, ew]
    · simp [handle_call, ram_read, reg_get, reg_set, ram_write, SP, hr1, hV, hs, ereg, ew2]
  · intro hneg W hW
    have hWd : c.ram.getD (256 + s).toNat 0 = W := by
      rw [pyGet_nonneg _ _ (by omega) (by omega)] at hW
      exact Option.some.inj hW
    have eread : pyGet c.ram s = some W := by
      rw [pyGet_negIdx _ _ (by omega) (by omega)]
      simp only [hlen, Nat.cast_ofNat]
      rw [hWd]
    have e1 := pySet_nonneg c.reg r W hr0 (by omega)
    have f5 : pyGet (c.reg.set r.toNat W) 7 = some s := by
      rw [pyGet_nonneg _ _ (by omega) (by simp [List.length_set]; omega)]
      rw [getD_set_ne _ _ _ _ (by omega)]
      rw [pyGet_nonneg _ _ (by omega) (by omega)] at hs
      exact congrArg some (Option.some.inj hs)
    have e2 := pySet_nonneg (c.reg.set r.toNat W) 7 (s + 1) (by omega)
      (by simp [List.length_set]; omega)
    have e3 := pySet_nonneg c.reg 7 (s + 1) (by omega) (by omega)
    constructor
    · simp [handle_pop, ram_read, reg_get, reg_set, SP, hr1, hs, eread, e1, f5, e2]
    · simp [handle_ret, ram_read, reg_get, reg_set, SP, hs, eread, e3]


set_option maxRecDepth 8000 in
/-- Witness for C7 on `cmpState`: the CMP of two equal registers sets the
flags to 1 and the step characterization holds there. -/
theorem c7_cmp_only_flags_witness :
    (pyGet cmpState.ram cmpState.pc = some CMP →
      (cmpStateAfter.fl = 1 ∨ cmpStateAfter.fl = 2 ∨ cmpStateAfter.fl = 4))
    ∧ (pyGet cmpState.ram cmpState.pc ≠ some CMP → cmpStateAfter.fl = cmpState.fl)
    ∧ ((cmpState.fl = 0 ∨ cmpState.fl = 1 ∨ cmpState.fl = 2 ∨ cmpState.fl = 4) →
       (cmpStateAfter.fl = 0 ∨ cmpStateAfter.fl = 1 ∨ cmpStateAfter.fl = 2 ∨
        cmpStateAfter.fl = 4)) := by
  exact c7_cmp_only_flags cmpState cmpStateAfter (by rfl)

set_option maxRecDepth 8000 in
/-- Witness for C10 on `negSpState` (stack pointer 0) and `negSpState2`
(stack pointer -1): the push/call write goes to address 255 and the pop/ret
read comes from address 255 (which holds 99). -/
theorem c10_negative_sp_alias_witness :
    (handle_push negSpState = Except.ok { negSpState with reg := negSpState.reg.set 7 (0 - 1), ram := negSpState.ram.set ((256 : Int) + (0 - 1)).toNat 42, pc := negSpState.pc + 1 }
     ∧ handle_call negSpState = Except.ok { negSpState with reg := negSpState.reg.set 7 (0 - 1), ram := negSpState.ram.set ((256 : Int) + (0 - 1)).toNat (negSpState.pc + 2), pc := 42 })
    ∧ (handle_pop negSpState2 = Except.ok { negSpState2 with reg := (negSpState2.reg.set (0 : Int).toNat 99).set 7 (-1 + 1), pc := negSpState2.pc + 1 }
     ∧ handle_ret negSpState2 = Except.ok { negSpState2 with reg := negSpState2.reg.set 7 (-1 + 1), pc := 99 - 1 }) := by
  constructor
  · exact (c10_negative_sp_alias negSpState 0 42 0 (by rfl) (by rfl) (by rfl) (by decide)
      (by decide) (by rfl) (by rfl)).1 (by decide)
  · exact (c10_negative_sp_alias negSpState2 0 42 (-1) (by rfl) (by rfl) (by rfl)
      (by decide) (by decide) (by rfl) (by rfl)).2 (by decide) 99 (by rfl)

end LS8
